import Mathlib

/-!
Shallow embedding of the selector-resolution engine of the `ads` repository
(file src/main/python/ads_helpers.py) and of its path-resolution cache,
together with proofs about the specification claims.

Conventions of the embedding:
* Python dictionaries are association lists `List (String × α)`; `dictLookup`
  returns the value of the LAST binding of a key, which realises the
  insertion-overwrite semantics of Python dict construction and `update`.
* Python `frozenset` of strings is `Finset String`.
* Exceptions are the error side of `Except`.  `BadSelectorException` carries
  either a `circular` or an `unresolved` payload; the `TypeError` raised by
  `reduce` on an empty sequence and the `AssertionError` raised by
  `assert selector` are separate constructors, since `except
  BadSelectorException` clauses do not catch them.
-/

/-- `Service` from ads_helpers.py: one controllable unit.  Fields mirror
`Service.__init__`; command strings and log paths are opaque here. -/
structure Service where
  name : String
  home : String
  description : Option String := none
  start_cmd : Option String := none
  stop_cmd : Option String := none
  status_cmd : Option String := none
  log_paths : List String := []
  err_log_paths : List String := []
deriving DecidableEq

/-- `ServiceSet` from ads_helpers.py: a named group, an ordered list of
selector strings. -/
structure ServiceSet where
  name : String
  selectors : List String
deriving DecidableEq

/-- `Project` from ads_helpers.py.  `services_by_name` is the dict built by
`Project.__init__` from the service list. -/
structure Project where
  name : String
  home : String
  services_by_name : List (String × Service)
  service_sets : List ServiceSet
  default_selector : String := "all"
deriving DecidableEq

/-- `Profile` from ads_helpers.py: user-scoped groups and optional default. -/
structure Profile where
  service_sets : List ServiceSet := []
  default_selector : Option String := none
deriving DecidableEq

/-- `Ads` from ads_helpers.py: the facade holding one project and one
profile. -/
structure Ads where
  project : Project
  profile : Profile
deriving DecidableEq

/-- Python dict lookup on an association list: the LAST binding of the key
wins, matching the overwrite semantics of `dict((k, v) for ...)`. -/
def dictLookup {α : Type} (l : List (String × α)) (k : String) : Option α :=
  (l.reverse.find? (fun p => p.1 == k)).map (·.2)

/-- The keys of an association list, in insertion order (possibly with
duplicates; membership and `toFinset` agree with the Python dict keys). -/
def dictKeys {α : Type} (l : List (String × α)) : List String :=
  l.map (·.1)

/-- Python `a or b` for an optional string `a`: `None` and the empty string
are falsy. -/
def pyOrStr (a : Option String) (b : String) : String :=
  match a with
  | none => b
  | some s => if s = "" then b else s

/-- `Service.get_description_or_default`: `self.description or
"(No description)"`. -/
def Service.get_description_or_default (s : Service) : String :=
  pyOrStr s.description "(No description)"

/-- Failure modes of `_resolve`:
* `circular` and `unresolved` are the two messages of
  `BadSelectorException`; each carries `list(selector_stack) + [selector]`
  exactly as interpolated into the message;
* `typeError` is the `TypeError` that Python 2 `reduce` raises on an empty
  sequence with no initial value (the empty-group case);
* `assertionError` is the failure of `assert selector` on a falsy
  (empty-string) selector. -/
inductive ResolveErr where
  | circular (chain : List String)
  | unresolved (name : String) (chain : List String)
  | typeError
  | assertionError
deriving DecidableEq

/-- Whether an error is a `BadSelectorException` (as opposed to a
`TypeError`/`AssertionError`), i.e. whether an
`except BadSelectorException` clause catches it. -/
def ResolveErr.isBadSelector : ResolveErr → Bool
  | .circular _ => true
  | .unresolved _ _ => true
  | .typeError => false
  | .assertionError => false

mutual

/-- `_resolve` from ads_helpers.py (lines 242-270), translated clause by
clause.  `selector_stack` is the ordered set of selectors currently being
expanded; pushing then popping around the recursive `map` is modelled by
passing `stack ++ [selector]` to the members.  `reduce(frozenset.__or__, _)`
on the empty list of member results raises `TypeError`. -/
def _resolve (selector : String) (project : Project)
    (d : List (String × ServiceSet)) (stack : List String) :
    Except ResolveErr (Finset String) :=
  if selector = "" then .error .assertionError
  else if _hmem : selector ∈ stack then
    .error (.circular (stack ++ [selector]))
  else if selector = "all" then
    .ok (dictKeys project.services_by_name).toFinset
  else
    match dictLookup project.services_by_name selector with
    | some svc => .ok {svc.name}
    | none =>
      match _hset : dictLookup d selector with
      | some ss =>
        match _resolveEach ss.selectors project d (stack ++ [selector]) with
        | .error e => .error e
        | .ok [] => .error .typeError
        | .ok (r :: rest) => .ok (rest.foldl (· ∪ ·) r)
      | none => .error (.unresolved selector (stack ++ [selector]))
termination_by
  (((dictKeys d).toFinset \ stack.toFinset).card, 0)
decreasing_by
  apply Prod.Lex.left
  have hk : selector ∈ dictKeys d := by
    unfold dictLookup at _hset
    cases hf : d.reverse.find? (fun p => p.1 == selector) with
    | none => rw [hf] at _hset; simp at _hset
    | some pr =>
      have hk2 := List.find?_some hf
      have hpl : pr ∈ d := List.mem_reverse.mp (List.mem_of_find?_eq_some hf)
      exact (eq_of_beq hk2) ▸ List.mem_map.mpr ⟨pr, hpl, rfl⟩
  have h1 : (stack ++ [selector]).toFinset = insert selector stack.toFinset := by
    rw [List.toFinset_append]
    simp [Finset.insert_eq, Finset.union_comm]
  rw [h1, Finset.sdiff_insert]
  exact Finset.card_erase_lt_of_mem
    (Finset.mem_sdiff.mpr
      ⟨List.mem_toFinset.mpr hk, fun hc => _hmem (List.mem_toFinset.mp hc)⟩)

/-- The eager Python 2 `map` of `_resolve` over a group's member selectors:
evaluates members in list order and propagates the first exception. -/
def _resolveEach (selectors : List String) (project : Project)
    (d : List (String × ServiceSet)) (stack : List String) :
    Except ResolveErr (List (Finset String)) :=
  match selectors with
  | [] => .ok []
  | s :: rest =>
    match _resolve s project d stack with
    | .error e => .error e
    | .ok r =>
      match _resolveEach rest project d stack with
      | .error e => .error e
      | .ok rs => .ok (r :: rs)
termination_by
  (((dictKeys d).toFinset \ stack.toFinset).card, selectors.length + 1)
decreasing_by
  · apply Prod.Lex.right
    simp
  · apply Prod.Lex.right
    simp

end

/-- The dict `dict((s.name, s) for s in service_sets)` built inside
`ServiceSet.resolve`. -/
def service_sets_dict (service_sets : List ServiceSet) :
    List (String × ServiceSet) :=
  service_sets.map (fun s => (s.name, s))

/-- `ServiceSet.resolve` from ads_helpers.py (lines 298-303): top-level
resolution with a fresh empty expansion stack. -/
def ServiceSet.resolve (selector : String) (project : Project)
    (service_sets : List ServiceSet) : Except ResolveErr (Finset String) :=
  _resolve selector project (service_sets_dict service_sets) []

/-- `Ads.get_default_selector`: `self.profile.default_selector or
self.project.default_selector`. -/
def Ads.get_default_selector (ads : Ads) : String :=
  pyOrStr ads.profile.default_selector ads.project.default_selector

/-- `Ads.resolve` from ads_helpers.py (lines 449-457): substitutes the
default selector for the literal `"default"`, then resolves against the
merged namespace `project.service_sets + profile.service_sets`. -/
def Ads.resolve (ads : Ads) (selector : String) :
    Except ResolveErr (Finset String) :=
  let sel := if selector = "default" then ads.get_default_selector
             else selector
  ServiceSet.resolve sel ads.project
    (ads.project.service_sets ++ ads.profile.service_sets)

deriving instance DecidableEq for Except

mutual

/-- State-threaded reading of `_resolve`: the same algorithm with the
`Project` object passed through every step and handed back, making explicit
that the recursion only reads it.  Used to settle the frame/purity claim. -/
def _resolveSt (selector : String) (env : Project)
    (d : List (String × ServiceSet)) (stack : List String) :
    Except ResolveErr (Finset String) × Project :=
  if selector = "" then (.error .assertionError, env)
  else if _hmem : selector ∈ stack then
    (.error (.circular (stack ++ [selector])), env)
  else if selector = "all" then
    (.ok (dictKeys env.services_by_name).toFinset, env)
  else
    match dictLookup env.services_by_name selector with
    | some svc => (.ok {svc.name}, env)
    | none =>
      match _hset : dictLookup d selector with
      | some ss =>
        match _resolveEachSt ss.selectors env d (stack ++ [selector]) with
        | (.error e, env2) => (.error e, env2)
        | (.ok [], env2) => (.error .typeError, env2)
        | (.ok (r :: rest), env2) => (.ok (rest.foldl (· ∪ ·) r), env2)
      | none => (.error (.unresolved selector (stack ++ [selector])), env)
termination_by
  (((dictKeys d).toFinset \ stack.toFinset).card, 0)
decreasing_by
  apply Prod.Lex.left
  have hk : selector ∈ dictKeys d := by
    unfold dictLookup at _hset
    cases hf : d.reverse.find? (fun p => p.1 == selector) with
    | none => rw [hf] at _hset; simp at _hset
    | some pr =>
      have hk2 := List.find?_some hf
      have hpl : pr ∈ d := List.mem_reverse.mp (List.mem_of_find?_eq_some hf)
      exact (eq_of_beq hk2) ▸ List.mem_map.mpr ⟨pr, hpl, rfl⟩
  have h1 : (stack ++ [selector]).toFinset = insert selector stack.toFinset := by
    rw [List.toFinset_append]
    simp [Finset.insert_eq, Finset.union_comm]
  rw [h1, Finset.sdiff_insert]
  exact Finset.card_erase_lt_of_mem
    (Finset.mem_sdiff.mpr
      ⟨List.mem_toFinset.mpr hk, fun hc => _hmem (List.mem_toFinset.mp hc)⟩)

/-- State-threaded reading of `_resolveEach`. -/
def _resolveEachSt (selectors : List String) (env : Project)
    (d : List (String × ServiceSet)) (stack : List String) :
    Except ResolveErr (List (Finset String)) × Project :=
  match selectors with
  | [] => (.ok [], env)
  | s :: rest =>
    match _resolveSt s env d stack with
    | (.error e, env2) => (.error e, env2)
    | (.ok r, env2) =>
      match _resolveEachSt rest env2 d stack with
      | (.error e, env3) => (.error e, env3)
      | (.ok rs, env3) => (.ok (r :: rs), env3)
termination_by
  (((dictKeys d).toFinset \ stack.toFinset).card, selectors.length + 1)
decreasing_by
  · apply Prod.Lex.right
    simp
  · apply Prod.Lex.right
    simp

end

/-- State-threaded reading of `Ads.resolve`, handing the facade state back. -/
def Ads.resolveSt (ads : Ads) (selector : String) :
    Except ResolveErr (Finset String) × Ads :=
  let sel := if selector = "default" then ads.get_default_selector
             else selector
  let res := _resolveSt sel ads.project
    (service_sets_dict (ads.project.service_sets ++ ads.profile.service_sets))
    []
  (res.1, { project := res.2, profile := ads.profile })

/-- The group-expansion arm of `_resolve` as a named operation: resolve the
member selectors in order, then fold the results with set union
(`reduce(frozenset.__or__, _)`, which raises `TypeError` on no results). -/
def groupExpand (members : List String) (project : Project)
    (d : List (String × ServiceSet)) (stack : List String) :
    Except ResolveErr (Finset String) :=
  match _resolveEach members project d stack with
  | .error e => .error e
  | .ok [] => .error .typeError
  | .ok (r :: rest) => .ok (rest.foldl (· ∪ ·) r)

/-- Errors a run of `Ads.list` can end in: the `KeyError` of the
`services_by_name[default_selector]` lookup, or a resolution error that is
not a `BadSelectorException` and so escapes the `try` block. -/
inductive PyErr where
  | keyError (key : String)
  | resolveErr (e : ResolveErr)
deriving DecidableEq

/-- `Service.as_printable_dict`: name to description-or-default, in the
iteration order of the given list (dict iteration order is unspecified in
Python 2; the claims settled here never depend on it). -/
def Service.as_printable_dict (services : List Service) :
    List (String × String) :=
  services.map (fun s => (s.name, s.get_description_or_default))

/-- `ServiceSet.as_printable_dict`: group name to the comma-joined member
list. -/
def ServiceSet.as_printable_dict (sets : List ServiceSet) :
    List (String × String) :=
  sets.map (fun s => (s.name, ", ".intercalate s.selectors))

/-- The four sections handed to `Treelisting` by `Ads.list`, as data:
heading, listing dict, optional empty-message.  The apostrophes of the
source empty-messages are elided. -/
def Ads.listSections (ads : Ads) (ds dd : String) :
    List (String × List (String × String) × Option String) :=
  [("All services in current project (" ++ ads.project.name ++ "):",
    Service.as_printable_dict (ads.project.services_by_name.map (·.2)),
    some "None (create ads.yml files in this dir tree)"),
   ("Groups defined in current project:",
    ServiceSet.as_printable_dict ads.project.service_sets,
    some "None (add groups to adsroot.yml)"),
   ("Groups defined in your ads profile:",
    ServiceSet.as_printable_dict ads.profile.service_sets,
    some "None (add groups to ~/.ads_profile.yml)"),
   ("Default service for commands if none are specified:",
    [(ds, dd)], none)]

/-- The tail of `Ads.list` after the default description has been computed:
the `default_description == default_selector` re-lookup (a `KeyError` if the
name is not a service) and the `Treelisting` construction. -/
def Ads.listAfter (ads : Ads) (ds dd : String) :
    Except PyErr (List (String × List (String × String) × Option String)) :=
  if dd = ds then
    match dictLookup ads.project.services_by_name ds with
    | none => .error (.keyError ds)
    | some svc => .ok (Ads.listSections ads ds svc.get_description_or_default)
  else .ok (Ads.listSections ads ds dd)

/-- `Ads.list` from ads_helpers.py (lines 463-489), as the section data it
prints.  Only `BadSelectorException` is caught around the resolution of the
default selector; the joined description of a successfully resolved set is
modelled in sorted order (CPython frozenset iteration order is
unspecified, and no claim settled here depends on it). -/
def Ads.list (ads : Ads) :
    Except PyErr (List (String × List (String × String) × Option String)) :=
  let ds := ads.get_default_selector
  match Ads.resolve ads ds with
  | .error e =>
    if e.isBadSelector then Ads.listAfter ads ds "(Unresolved)"
    else .error (.resolveErr e)
  | .ok names =>
    Ads.listAfter ads ds (", ".intercalate (names.sort (· ≤ ·)))

/-- Modelled from the spec: the `Cache` class of this repository is not under
`src/` (only its unit tests, tests/unit/test_cache.py, are), so
`write_to_cache` is taken from spec section 4.2: it merges `updates` into the
existing cache content plus a synthetic `"adsroot" → projectManifestPath`
entry and persists the result.  The persisted mapping is the returned
association list under last-binding-wins lookup; atomic write-then-rename
is an I/O concern outside this embedding. -/
def Cache.write_to_cache (cache : List (String × String))
    (project_manifest_path : String) (updates : List (String × String)) :
    List (String × String) :=
  (cache ++ [("adsroot", project_manifest_path)]) ++ updates

/-- Modelled from the spec: the `Cache` class is not under `src/`; `get` is
taken from spec section 4.2: return the cached path on a hit; on a miss fall
through to a live lookup via the external discovery collaborator (the `live`
parameter) and write the result back into the in-memory cache. -/
def Cache.get (cache : List (String × String)) (live : String → Option String)
    (name : String) : Option String × List (String × String) :=
  match dictLookup cache name with
  | some p => (some p, cache)
  | none =>
    match live name with
    | some p => (some p, cache ++ [(name, p)])
    | none => (none, cache)

/-! Concrete instances used to witness or refute the claims. -/

/-- A project with no services and no groups. -/
def projEmpty : Project :=
  { name := "p", home := "/p", services_by_name := [], service_sets := [] }

/-- Groups `a = [b]`, `b = [a]`: the direct two-group cycle of the spec
scenario. -/
def abSets : List ServiceSet := [⟨"a", ["b"]⟩, ⟨"b", ["a"]⟩]

/-- Groups `c = [a]`, `a = [b]`, `b = [a]`: a cycle entered through the
non-cyclic selector `c`. -/
def cycSets : List ServiceSet := [⟨"c", ["a"]⟩, ⟨"a", ["b"]⟩, ⟨"b", ["a"]⟩]

/-- The spec scenario project: services `api`, `db`, `web`. -/
def projDemo : Project :=
  { name := "demo", home := "/demo",
    services_by_name :=
      [("api", { name := "api", home := "/demo/api" }),
       ("db", { name := "db", home := "/demo/db" }),
       ("web", { name := "web", home := "/demo/web" })],
    service_sets := [] }

/-- The spec scenario groups: `web_stack = [api, web]`,
`everything = [web_stack, db]`. -/
def demoSets : List ServiceSet :=
  [⟨"web_stack", ["api", "web"]⟩, ⟨"everything", ["web_stack", "db"]⟩]

/-- A facade whose default selector is the literal string `"(Unresolved)"`,
which no service or group defines. -/
def adsUnresolvedName : Ads :=
  { project := { name := "p", home := "/p", services_by_name := [],
                 service_sets := [], default_selector := "(Unresolved)" },
    profile := {} }

/-- A facade whose default selector names a group with an empty member
list. -/
def adsEmptyGroupDefault : Ads :=
  { project := { name := "p", home := "/p", services_by_name := [],
                 service_sets := [⟨"g", []⟩], default_selector := "g" },
    profile := {} }

/-- A facade whose default selector names nothing at all. -/
def adsMissingDefault : Ads :=
  { project := { name := "p", home := "/p", services_by_name := [],
                 service_sets := [], default_selector := "nonexistent" },
    profile := {} }

/-- A facade for the collision claim: project and profile both define a
group named `shared`; the project maps it to `[api]`, the profile to
`[db]`. -/
def adsCollision : Ads :=
  { project := { name := "demo", home := "/demo",
                 services_by_name := projDemo.services_by_name,
                 service_sets := [⟨"shared", ["api"]⟩] },
    profile := { service_sets := [⟨"shared", ["db"]⟩] } }

/-- A facade whose profile overrides the default selector. -/
def adsProfileDefault : Ads :=
  { project := { name := "demo", home := "/demo",
                 services_by_name := projDemo.services_by_name,
                 service_sets := [], default_selector := "api" },
    profile := { default_selector := some "db" } }

/-! Helper lemmas about the embedding. -/

lemma mem_dictKeys_of_lookup {α : Type} {l : List (String × α)} {k : String}
    {v : α} (h : dictLookup l k = some v) : k ∈ dictKeys l := by
  unfold dictLookup at h
  cases hf : l.reverse.find? (fun p => p.1 == k) with
  | none => rw [hf] at h; simp at h
  | some pr =>
    have hk := List.find?_some hf
    have hpl : pr ∈ l := List.mem_reverse.mp (List.mem_of_find?_eq_some hf)
    exact (eq_of_beq hk) ▸ List.mem_map.mpr ⟨pr, hpl, rfl⟩

/-- Pushing a group name that is a key of `d` and not yet on the stack
strictly shrinks the set of keys not on the stack: the termination measure
of `_resolve`. -/
lemma measure_push {d : List (String × ServiceSet)} {stack : List String}
    {sel : String} (hk : sel ∈ dictKeys d) (hs : sel ∉ stack) :
    ((dictKeys d).toFinset \ (stack ++ [sel]).toFinset).card <
      ((dictKeys d).toFinset \ stack.toFinset).card := by
  have h1 : (stack ++ [sel]).toFinset = insert sel stack.toFinset := by
    rw [List.toFinset_append]
    simp [Finset.insert_eq, Finset.union_comm]
  rw [h1, Finset.sdiff_insert]
  exact Finset.card_erase_lt_of_mem
    (Finset.mem_sdiff.mpr
      ⟨List.mem_toFinset.mpr hk, fun hc => hs (List.mem_toFinset.mp hc)⟩)

lemma dictLookup_append {α : Type} (x y : List (String × α)) (k : String) :
    dictLookup (x ++ y) k = (dictLookup y k).or (dictLookup x k) := by
  unfold dictLookup
  rw [List.reverse_append, List.find?_append]
  cases hf : y.reverse.find? (fun p => p.1 == k) with
  | none => simp [hf]
  | some pr => simp [hf]

/-! One lemma per arm of `_resolve`, rewriting a call to its value. -/

lemma _resolve_assert (sel : String) (p : Project)
    (d : List (String × ServiceSet)) (stack : List String) (h0 : sel = "") :
    _resolve sel p d stack = .error .assertionError := by
  unfold _resolve; simp [h0]

lemma _resolve_circ_hit (sel : String) (p : Project)
    (d : List (String × ServiceSet)) (stack : List String)
    (h0 : sel ≠ "") (hmem : sel ∈ stack) :
    _resolve sel p d stack = .error (.circular (stack ++ [sel])) := by
  unfold _resolve; simp [h0, hmem]

lemma _resolve_all (p : Project) (d : List (String × ServiceSet))
    (stack : List String) (hmem : "all" ∉ stack) :
    _resolve "all" p d stack =
      .ok (dictKeys p.services_by_name).toFinset := by
  unfold _resolve; simp [hmem]

lemma _resolve_service (sel : String) (p : Project)
    (d : List (String × ServiceSet)) (stack : List String) (svc : Service)
    (h0 : sel ≠ "") (hmem : sel ∉ stack) (hall : sel ≠ "all")
    (hsvc : dictLookup p.services_by_name sel = some svc) :
    _resolve sel p d stack = .ok {svc.name} := by
  unfold _resolve; simp [h0, hmem, hall, hsvc]

lemma _resolve_group (sel : String) (p : Project)
    (d : List (String × ServiceSet)) (stack : List String) (ss : ServiceSet)
    (h0 : sel ≠ "") (hmem : sel ∉ stack) (hall : sel ≠ "all")
    (hsvc : dictLookup p.services_by_name sel = none)
    (hset : dictLookup d sel = some ss) :
    _resolve sel p d stack = groupExpand ss.selectors p d (stack ++ [sel]) := by
  unfold _resolve groupExpand
  simp only [h0, hmem, hall, hsvc, if_false, dite_false, ite_false,
    if_neg, dif_neg, not_false_iff]
  split
  · rename_i ss2 heq
    rw [hset] at heq
    injection heq with h
    subst h
    rfl
  · rename_i heq
    rw [hset] at heq
    exact absurd heq (by simp)

lemma _resolve_unknown (sel : String) (p : Project)
    (d : List (String × ServiceSet)) (stack : List String)
    (h0 : sel ≠ "") (hmem : sel ∉ stack) (hall : sel ≠ "all")
    (hsvc : dictLookup p.services_by_name sel = none)
    (hset : dictLookup d sel = none) :
    _resolve sel p d stack = .error (.unresolved sel (stack ++ [sel])) := by
  unfold _resolve
  simp only [h0, hmem, hall, hsvc, if_false, dite_false, ite_false,
    if_neg, dif_neg, not_false_iff]
  split
  · rename_i ss2 heq
    rw [hset] at heq
    exact absurd heq (by simp)
  · rfl

/-! The same per-arm lemmas for the state-threaded reading. -/

lemma _resolveSt_assert (sel : String) (env : Project)
    (d : List (String × ServiceSet)) (stack : List String) (h0 : sel = "") :
    _resolveSt sel env d stack = (.error .assertionError, env) := by
  unfold _resolveSt; simp [h0]

lemma _resolveSt_circ_hit (sel : String) (env : Project)
    (d : List (String × ServiceSet)) (stack : List String)
    (h0 : sel ≠ "") (hmem : sel ∈ stack) :
    _resolveSt sel env d stack =
      (.error (.circular (stack ++ [sel])), env) := by
  unfold _resolveSt; simp [h0, hmem]

lemma _resolveSt_all (env : Project) (d : List (String × ServiceSet))
    (stack : List String) (hmem : "all" ∉ stack) :
    _resolveSt "all" env d stack =
      (.ok (dictKeys env.services_by_name).toFinset, env) := by
  unfold _resolveSt; simp [hmem]

lemma _resolveSt_service (sel : String) (env : Project)
    (d : List (String × ServiceSet)) (stack : List String) (svc : Service)
    (h0 : sel ≠ "") (hmem : sel ∉ stack) (hall : sel ≠ "all")
    (hsvc : dictLookup env.services_by_name sel = some svc) :
    _resolveSt sel env d stack = (.ok {svc.name}, env) := by
  unfold _resolveSt; simp [h0, hmem, hall, hsvc]

lemma _resolveSt_group (sel : String) (env : Project)
    (d : List (String × ServiceSet)) (stack : List String) (ss : ServiceSet)
    (h0 : sel ≠ "") (hmem : sel ∉ stack) (hall : sel ≠ "all")
    (hsvc : dictLookup env.services_by_name sel = none)
    (hset : dictLookup d sel = some ss) :
    _resolveSt sel env d stack =
      (match _resolveEachSt ss.selectors env d (stack ++ [sel]) with
       | (.error e, env2) => (.error e, env2)
       | (.ok [], env2) => (.error .typeError, env2)
       | (.ok (r :: rest), env2) => (.ok (rest.foldl (· ∪ ·) r), env2)) := by
  unfold _resolveSt
  simp only [h0, hmem, hall, hsvc, if_false, dite_false, ite_false,
    if_neg, dif_neg, not_false_iff]
  split
  · rename_i ss2 heq
    rw [hset] at heq
    injection heq with h
    subst h
    rfl
  · rename_i heq
    rw [hset] at heq
    exact absurd heq (by simp)

lemma _resolveSt_unknown (sel : String) (env : Project)
    (d : List (String × ServiceSet)) (stack : List String)
    (h0 : sel ≠ "") (hmem : sel ∉ stack) (hall : sel ≠ "all")
    (hsvc : dictLookup env.services_by_name sel = none)
    (hset : dictLookup d sel = none) :
    _resolveSt sel env d stack =
      (.error (.unresolved sel (stack ++ [sel])), env) := by
  unfold _resolveSt
  simp only [h0, hmem, hall, hsvc, if_false, dite_false, ite_false,
    if_neg, dif_neg, not_false_iff]
  split
  · rename_i ss2 heq
    rw [hset] at heq
    exact absurd heq (by simp)
  · rfl

/-- If every `_resolve` call at this dict and stack agrees with its
state-threaded reading, then so does every `_resolveEachSt` call. -/
lemma eachSt_of_st (d : List (String × ServiceSet)) (stack : List String)
    (hA : ∀ (sel : String) (env : Project),
      _resolveSt sel env d stack = (_resolve sel env d stack, env)) :
    ∀ (ms : List String) (env : Project),
      _resolveEachSt ms env d stack = (_resolveEach ms env d stack, env) := by
  intro ms
  induction ms with
  | nil =>
    intro env
    unfold _resolveEachSt _resolveEach
    rfl
  | cons s rest ihm =>
    intro env
    unfold _resolveEachSt _resolveEach
    rw [hA s env]
    cases _resolve s env d stack with
    | error e => rfl
    | ok r =>
      dsimp only
      rw [ihm env]
      cases _resolveEach rest env d stack with
      | error e => rfl
      | ok rs => rfl

/-- The state-threaded resolver returns its `Project` argument unchanged and
computes the same value as `_resolve`, for every call whose termination
measure is at most `n`. -/
lemma st_aux (n : Nat) (d : List (String × ServiceSet)) :
    ∀ stack : List String,
      ((dictKeys d).toFinset \ stack.toFinset).card ≤ n →
      ∀ (sel : String) (env : Project),
        _resolveSt sel env d stack = (_resolve sel env d stack, env) := by
  induction n with
  | zero =>
    intro stack hcard sel env
    by_cases h0 : sel = ""
    · rw [_resolveSt_assert sel env d stack h0, _resolve_assert sel env d stack h0]
    by_cases hmem : sel ∈ stack
    · rw [_resolveSt_circ_hit sel env d stack h0 hmem,
        _resolve_circ_hit sel env d stack h0 hmem]
    by_cases hall : sel = "all"
    · subst hall
      rw [_resolveSt_all env d stack hmem, _resolve_all env d stack hmem]
    cases hsvc : dictLookup env.services_by_name sel with
    | some svc =>
      rw [_resolveSt_service sel env d stack svc h0 hmem hall hsvc,
        _resolve_service sel env d stack svc h0 hmem hall hsvc]
    | none =>
      cases hset : dictLookup d sel with
      | some ss =>
        have := measure_push (mem_dictKeys_of_lookup hset) hmem
        omega
      | none =>
        rw [_resolveSt_unknown sel env d stack h0 hmem hall hsvc hset,
          _resolve_unknown sel env d stack h0 hmem hall hsvc hset]
  | succ n ih =>
    intro stack hcard sel env
    by_cases h0 : sel = ""
    · rw [_resolveSt_assert sel env d stack h0, _resolve_assert sel env d stack h0]
    by_cases hmem : sel ∈ stack
    · rw [_resolveSt_circ_hit sel env d stack h0 hmem,
        _resolve_circ_hit sel env d stack h0 hmem]
    by_cases hall : sel = "all"
    · subst hall
      rw [_resolveSt_all env d stack hmem, _resolve_all env d stack hmem]
    cases hsvc : dictLookup env.services_by_name sel with
    | some svc =>
      rw [_resolveSt_service sel env d stack svc h0 hmem hall hsvc,
        _resolve_service sel env d stack svc h0 hmem hall hsvc]
    | none =>
      cases hset : dictLookup d sel with
      | some ss =>
        have hlt := measure_push (mem_dictKeys_of_lookup hset) hmem
        have hcard2 :
            ((dictKeys d).toFinset \ (stack ++ [sel]).toFinset).card ≤ n := by
          omega
        have hst := ih (stack ++ [sel]) hcard2
        have heach := eachSt_of_st d (stack ++ [sel]) hst
        rw [_resolveSt_group sel env d stack ss h0 hmem hall hsvc hset,
          _resolve_group sel env d stack ss h0 hmem hall hsvc hset]
        rw [heach ss.selectors env]
        unfold groupExpand
        cases _resolveEach ss.selectors env d (stack ++ [sel]) with
        | error e => rfl
        | ok rs =>
          cases rs with
          | nil => rfl
          | cons r rest => rfl
      | none =>
        rw [_resolveSt_unknown sel env d stack h0 hmem hall hsvc hset,
          _resolve_unknown sel env d stack h0 hmem hall hsvc hset]

/-- Top-level agreement: the state-threaded facade resolution returns the
facade unchanged and the `_resolve` value. -/
lemma resolveSt_eq (ads : Ads) (selector : String) :
    Ads.resolveSt ads selector = (Ads.resolve ads selector, ads) := by
  unfold Ads.resolveSt Ads.resolve ServiceSet.resolve
  dsimp only
  rw [st_aux _ _ [] (le_refl _) _ ads.project]

/-- If every member of `ms` resolves successfully to `v m`, the eager map
over the members succeeds with the list of those values. -/
lemma resolveEach_ok (p : Project) (d : List (String × ServiceSet))
    (stack : List String) (v : String → Finset String) :
    ∀ ms : List String, (∀ m ∈ ms, _resolve m p d stack = .ok (v m)) →
      _resolveEach ms p d stack = .ok (ms.map v) := by
  intro ms
  induction ms with
  | nil =>
    intro _
    unfold _resolveEach
    rfl
  | cons s rest ihm =>
    intro h
    unfold _resolveEach
    rw [h s (List.mem_cons_self s rest), ihm (fun m hm => h m (List.mem_cons_of_mem s hm))]
    rfl

/-- Any circular chain produced by mapping `_resolve` over a member list
has the shape required of chains produced at this stack, provided every
direct `_resolve` call at this stack produces such chains. -/
lemma each_chain_shape (p : Project) (d : List (String × ServiceSet))
    (stack : List String) (P : List String → Prop)
    (hA : ∀ sel ch, _resolve sel p d stack = .error (.circular ch) → P ch) :
    ∀ ms ch, _resolveEach ms p d stack = .error (.circular ch) → P ch := by
  intro ms
  induction ms with
  | nil =>
    intro ch h
    unfold _resolveEach at h
    simp at h
  | cons s rest ihm =>
    intro ch h
    unfold _resolveEach at h
    cases hr : _resolve s p d stack with
    | error e =>
      rw [hr] at h
      injection h with h2
      subst h2
      exact hA s ch hr
    | ok r =>
      rw [hr] at h
      dsimp only at h
      cases hrs : _resolveEach rest p d stack with
      | error e =>
        rw [hrs] at h
        injection h with h2
        subst h2
        exact ihm ch hrs
      | ok rs =>
        rw [hrs] at h
        simp at h

/-- Every circular error raised inside `_resolve` reports
`current stack ++ [repeated selector]`, where the current stack extends the
entry stack and the repeated selector is on the current stack. -/
lemma circ_shape_aux (p : Project) (d : List (String × ServiceSet)) (n : Nat) :
    ∀ stack : List String,
      ((dictKeys d).toFinset \ stack.toFinset).card ≤ n →
      ∀ sel ch, _resolve sel p d stack = .error (.circular ch) →
        ∃ t x, ch = stack ++ t ++ [x] ∧ x ∈ stack ++ t := by
  induction n with
  | zero =>
    intro stack hcard sel ch h
    by_cases h0 : sel = ""
    · rw [_resolve_assert sel p d stack h0] at h
      simp at h
    by_cases hmem : sel ∈ stack
    · rw [_resolve_circ_hit sel p d stack h0 hmem] at h
      injection h with h2
      injection h2 with h3
      exact ⟨[], sel, by simp [← h3], by simpa using hmem⟩
    by_cases hall : sel = "all"
    · subst hall
      rw [_resolve_all p d stack hmem] at h
      simp at h
    cases hsvc : dictLookup p.services_by_name sel with
    | some svc =>
      rw [_resolve_service sel p d stack svc h0 hmem hall hsvc] at h
      simp at h
    | none =>
      cases hset : dictLookup d sel with
      | some ss =>
        have := measure_push (mem_dictKeys_of_lookup hset) hmem
        omega
      | none =>
        rw [_resolve_unknown sel p d stack h0 hmem hall hsvc hset] at h
        simp at h
  | succ n ih =>
    intro stack hcard sel ch h
    by_cases h0 : sel = ""
    · rw [_resolve_assert sel p d stack h0] at h
      simp at h
    by_cases hmem : sel ∈ stack
    · rw [_resolve_circ_hit sel p d stack h0 hmem] at h
      injection h with h2
      injection h2 with h3
      exact ⟨[], sel, by simp [← h3], by simpa using hmem⟩
    by_cases hall : sel = "all"
    · subst hall
      rw [_resolve_all p d stack hmem] at h
      simp at h
    cases hsvc : dictLookup p.services_by_name sel with
    | some svc =>
      rw [_resolve_service sel p d stack svc h0 hmem hall hsvc] at h
      simp at h
    | none =>
      cases hset : dictLookup d sel with
      | some ss =>
        have hlt := measure_push (mem_dictKeys_of_lookup hset) hmem
        have hcard2 :
            ((dictKeys d).toFinset \ (stack ++ [sel]).toFinset).card ≤ n := by
          omega
        rw [_resolve_group sel p d stack ss h0 hmem hall hsvc hset] at h
        unfold groupExpand at h
        cases he : _resolveEach ss.selectors p d (stack ++ [sel]) with
        | error e =>
          rw [he] at h
          injection h with h2
          subst h2
          obtain ⟨t, x, ht, hx⟩ :=
            each_chain_shape p d (stack ++ [sel])
              (fun ch2 => ∃ t x, ch2 = (stack ++ [sel]) ++ t ++ [x] ∧
                x ∈ (stack ++ [sel]) ++ t)
              (ih (stack ++ [sel]) hcard2) ss.selectors ch he
          refine ⟨sel :: t, x, ?_, ?_⟩
          · simpa using ht
          · simpa using hx
        | ok rs =>
          rw [he] at h
          cases rs with
          | nil => simp at h
          | cons r rest => simp at h
      | none =>
        rw [_resolve_unknown sel p d stack h0 hmem hall hsvc hset] at h
        simp at h

/-! Claim theorems. -/

/-- C1: for every project and every merged group namespace, resolving the
selector "all" returns exactly the set of all service names known to the
project, regardless of what groups are defined. -/
theorem C1_resolve_all (project : Project) (service_sets : List ServiceSet) :
    ServiceSet.resolve "all" project service_sets =
      .ok (dictKeys project.services_by_name).toFinset := by
  unfold ServiceSet.resolve
  rw [_resolve_all project (service_sets_dict service_sets) [] (by simp)]

/-- C2 counterexample: a group whose selector list is empty vacuously
satisfies "all member selectors resolve without error", yet resolving its
name does not return the (empty) union of the member results: the
`reduce` over zero member results raises `TypeError`. -/
theorem C2_counterexample :
    ServiceSet.resolve "h" projEmpty [⟨"h", []⟩] ≠
      .ok (∅ : Finset String) := by
  have h1 : ServiceSet.resolve "h" projEmpty [⟨"h", []⟩] =
      .error .typeError := by
    simp [ServiceSet.resolve, service_sets_dict, projEmpty, _resolve,
      _resolveEach, dictLookup, dictKeys, List.find?]
  rw [h1]
  simp

/-- C2 (amended): for every group with at least one member selector whose
member selectors all resolve without error, resolving the group's name
returns the union of the resolution results of its member selectors. -/
theorem C2_group_union (p : Project) (sets : List ServiceSet) (g : String)
    (ss : ServiceSet) (v : String → Finset String)
    (h0 : g ≠ "") (hall : g ≠ "all")
    (hsvc : dictLookup p.services_by_name g = none)
    (hset : dictLookup (service_sets_dict sets) g = some ss)
    (hne : ss.selectors ≠ [])
    (hm : ∀ m ∈ ss.selectors,
      _resolve m p (service_sets_dict sets) [g] = .ok (v m)) :
    ServiceSet.resolve g p sets =
      .ok (ss.selectors.foldl (fun acc m => acc ∪ v m) ∅) := by
  unfold ServiceSet.resolve
  rw [_resolve_group g p (service_sets_dict sets) [] ss h0 (by simp) hall
    hsvc hset]
  rw [List.nil_append]
  unfold groupExpand
  rw [resolveEach_ok p (service_sets_dict sets) [g] v ss.selectors hm]
  cases hsel : ss.selectors with
  | nil => exact absurd hsel hne
  | cons m rest =>
    dsimp only [List.map]
    congr 1
    rw [List.foldl_map]
    simp

/-- Witness for C2 at the spec scenario: services api, db, web; groups
web_stack = [api, web] and everything = [web_stack, db]; resolving
"everything" gives {api, web, db}. -/
theorem C2_witness :
    ServiceSet.resolve "everything" projDemo demoSets =
      .ok ({"api", "web", "db"} : Finset String) := by
  have h := C2_group_union projDemo demoSets "everything"
    ⟨"everything", ["web_stack", "db"]⟩
    (fun m => if m = "web_stack" then {"api", "web"} else {"db"})
    (by decide) (by decide) (by rfl) (by rfl) (by simp)
    (by
      intro m hm
      simp only [List.mem_cons, List.not_mem_nil, or_false] at hm
      rcases hm with rfl | rfl
      · simp [_resolve, _resolveEach, dictLookup, dictKeys, List.find?,
          service_sets_dict, demoSets, projDemo]
        decide
      · simp [_resolve, _resolveEach, dictLookup, dictKeys, List.find?,
          service_sets_dict, demoSets, projDemo])
  rw [h]
  congr 1

/-- C3: the claim (an empty group resolves to the empty set) matches the
spec, but the code raises `TypeError` at that input: `reduce` over the
empty list of member results has no initial value.  This theorem evaluates
the code at the failing input. -/
theorem C3_empty_group_typeerror :
    ServiceSet.resolve "g" projEmpty [⟨"g", []⟩] = .error .typeError ∧
    ServiceSet.resolve "g" projEmpty [⟨"g", []⟩] ≠
      .ok (∅ : Finset String) := by
  have h1 : ServiceSet.resolve "g" projEmpty [⟨"g", []⟩] =
      .error .typeError := by
    simp [ServiceSet.resolve, service_sets_dict, projEmpty, _resolve,
      _resolveEach, dictLookup, dictKeys, List.find?]
  exact ⟨h1, by rw [h1]; simp⟩

/-- C4 counterexample: with groups c = [a], a = [b], b = [a], resolving "c"
reports the chain c -> a -> b -> a (the full expansion stack from the
top-level selector), not the chain a -> b -> a that starts at the first
occurrence of the repeated selector, as the claim states. -/
theorem C4_counterexample :
    ServiceSet.resolve "c" projEmpty cycSets =
      .error (.circular ["c", "a", "b", "a"]) ∧
    ["c", "a", "b", "a"] ≠ ["a", "b", "a"] := by
  constructor
  · simp [ServiceSet.resolve, service_sets_dict, cycSets, projEmpty,
      _resolve, _resolveEach, dictLookup, dictKeys, List.find?]
  · decide

/-- C4 (amended): every circular failure reports a chain that starts at the
top-level selector and ends with the repetition of a selector occurring
earlier in the chain (the full expansion stack at detection time followed
by the repeated selector), in first-encounter order. -/
theorem C4_circular_chain (s : String) (p : Project) (sets : List ServiceSet)
    (ch : List String)
    (h : ServiceSet.resolve s p sets = .error (.circular ch)) :
    ∃ t x, ch = s :: (t ++ [x]) ∧ x ∈ s :: t := by
  unfold ServiceSet.resolve at h
  by_cases h0 : s = ""
  · rw [_resolve_assert s p (service_sets_dict sets) [] h0] at h
    simp at h
  by_cases hall : s = "all"
  · subst hall
    rw [_resolve_all p (service_sets_dict sets) [] (by simp)] at h
    simp at h
  cases hsvc : dictLookup p.services_by_name s with
  | some svc =>
    rw [_resolve_service s p (service_sets_dict sets) [] svc h0 (by simp)
      hall hsvc] at h
    simp at h
  | none =>
    cases hset : dictLookup (service_sets_dict sets) s with
    | none =>
      rw [_resolve_unknown s p (service_sets_dict sets) [] h0 (by simp)
        hall hsvc hset] at h
      simp at h
    | some ss =>
      rw [_resolve_group s p (service_sets_dict sets) [] ss h0 (by simp)
        hall hsvc hset] at h
      rw [List.nil_append] at h
      unfold groupExpand at h
      cases he : _resolveEach ss.selectors p (service_sets_dict sets) [s] with
      | error e =>
        rw [he] at h
        injection h with h2
        subst h2
        obtain ⟨t, x, ht, hx⟩ :=
          each_chain_shape p (service_sets_dict sets) [s]
            (fun ch2 => ∃ t x, ch2 = [s] ++ t ++ [x] ∧ x ∈ [s] ++ t)
            (circ_shape_aux p (service_sets_dict sets) _ [s] (le_refl _))
            ss.selectors ch he
        exact ⟨t, x, by simpa using ht, by simpa using hx⟩
      | ok rs =>
        rw [he] at h
        cases rs with
        | nil => simp at h
        | cons r rest => simp at h

/-- Witness for C4 at the spec scenario a = [b], b = [a]: resolving "a"
fails with circular chain a -> b -> a, which has the amended shape. -/
theorem C4_witness :
    ∃ t x, ["a", "b", "a"] = "a" :: (t ++ [x]) ∧ x ∈ "a" :: t :=
  C4_circular_chain "a" projEmpty abSets ["a", "b", "a"]
    (by simp [ServiceSet.resolve, service_sets_dict, abSets, projEmpty,
      _resolve, _resolveEach, dictLookup, dictKeys, List.find?])

/-- C5: a selector that is not "all", not a service name and not a group
name fails with an Unresolved error whose reported reference chain is the
traversed expansion stack followed by the selector itself; resolved at top
level, the traversed stack is empty and the chain names just the selector.
(The source asserts selectors are truthy, so the empty string is outside
the selector domain.) -/
theorem C5_unknown_selector (s : String) (p : Project)
    (sets : List ServiceSet) (stack : List String)
    (h0 : s ≠ "") (hall : s ≠ "all")
    (hsvc : dictLookup p.services_by_name s = none)
    (hset : dictLookup (service_sets_dict sets) s = none) :
    (s ∉ stack →
      _resolve s p (service_sets_dict sets) stack =
        .error (.unresolved s (stack ++ [s]))) ∧
    ServiceSet.resolve s p sets = .error (.unresolved s [s]) := by
  constructor
  · intro hmem
    exact _resolve_unknown s p (service_sets_dict sets) stack h0 hmem hall
      hsvc hset
  · unfold ServiceSet.resolve
    have h := _resolve_unknown s p (service_sets_dict sets) [] h0 (by simp)
      hall hsvc hset
    simpa using h

/-- Witness for C5 at the spec scenario: selector "nonexistent" in a
project with no services and no groups fails with reference chain
["nonexistent"] (no traversed prefix). -/
theorem C5_witness :
    ServiceSet.resolve "nonexistent" projEmpty [] =
      .error (.unresolved "nonexistent" ["nonexistent"]) :=
  (C5_unknown_selector "nonexistent" projEmpty [] [] (by decide) (by decide)
    rfl rfl).2

/-- C6: resolving "default" resolves the computed default selector — the
profile's default when the profile defines one (a set, truthy value; the
loader never produces an empty-string default), else the project's — and
the group namespace passed to the resolver is project groups followed by
profile groups, so it contains the groups of both. -/
theorem C6_default_resolution (ads : Ads) :
    (Ads.resolve ads "default" =
      ServiceSet.resolve (Ads.get_default_selector ads) ads.project
        (ads.project.service_sets ++ ads.profile.service_sets)) ∧
    (∀ s, ads.profile.default_selector = some s → s ≠ "" →
      Ads.get_default_selector ads = s) ∧
    (ads.profile.default_selector = none →
      Ads.get_default_selector ads = ads.project.default_selector) ∧
    (∀ ss : ServiceSet,
      ss ∈ ads.project.service_sets ∨ ss ∈ ads.profile.service_sets →
      ss ∈ ads.project.service_sets ++ ads.profile.service_sets) := by
  refine ⟨?_, ?_, ?_, ?_⟩
  · unfold Ads.resolve
    simp
  · intro s hs hne
    unfold Ads.get_default_selector
    rw [hs]
    unfold pyOrStr
    dsimp only
    rw [if_neg hne]
  · intro hnone
    unfold Ads.get_default_selector
    rw [hnone]
    rfl
  · intro ss hss
    simpa using hss

/-- Witness for C6: a profile default "db" overrides the project default
"api". -/
theorem C6_witness : Ads.get_default_selector adsProfileDefault = "db" :=
  (C6_default_resolution adsProfileDefault).2.1 "db" rfl (by decide)

/-- C7: resolution, read with the facade state threaded through every step
of the recursion, hands the Project and Profile back unchanged, agrees
with the pure resolution function, and calling it again on the state it
returned yields the same result. -/
theorem C7_resolution_pure (ads : Ads) (selector : String) :
    (Ads.resolveSt ads selector).2 = ads ∧
    (Ads.resolveSt ads selector).1 = Ads.resolve ads selector ∧
    (Ads.resolveSt ((Ads.resolveSt ads selector).2) selector).1 =
      (Ads.resolveSt ads selector).1 := by
  have h := resolveSt_eq ads selector
  refine ⟨by rw [h], by rw [h], ?_⟩
  rw [h]
  dsimp only
  rw [h]

/-- C8 counterexample: two facades whose default selector fails to resolve
but whose `list()` does not complete.  With default selector literally
"(Unresolved)" (naming no service or group), the caught failure's
placeholder string equals the selector, and the follow-up
`services_by_name[default_selector]` lookup raises KeyError.  With a
default selector naming a group with no members, resolution raises
TypeError, which the `except BadSelectorException` clause does not catch. -/
theorem C8_counterexample :
    Ads.list adsUnresolvedName = .error (.keyError "(Unresolved)") ∧
    Ads.list adsEmptyGroupDefault = .error (.resolveErr .typeError) := by
  constructor
  · simp [Ads.list, Ads.listAfter, Ads.resolve, Ads.get_default_selector,
      pyOrStr, ServiceSet.resolve, service_sets_dict, adsUnresolvedName,
      _resolve, _resolveEach, dictLookup, dictKeys, List.find?,
      ResolveErr.isBadSelector]
  · simp [Ads.list, Ads.listAfter, Ads.resolve, Ads.get_default_selector,
      pyOrStr, ServiceSet.resolve, service_sets_dict, adsEmptyGroupDefault,
      _resolve, _resolveEach, dictLookup, dictKeys, List.find?,
      ResolveErr.isBadSelector]

/-- C8 (amended): if the default selector fails to resolve with a
BadSelectorException (Circular or Unresolved) and is not itself the literal
string "(Unresolved)", then `list()` does not propagate the resolution
error: it completes and its final section reports the default as
"(Unresolved)". -/
theorem C8_list_degrades (ads : Ads) (e : ResolveErr)
    (he : Ads.resolve ads (Ads.get_default_selector ads) = .error e)
    (hbad : e.isBadSelector = true)
    (hne : Ads.get_default_selector ads ≠ "(Unresolved)") :
    Ads.list ads =
      .ok (Ads.listSections ads (Ads.get_default_selector ads)
        "(Unresolved)") ∧
    (Ads.listSections ads (Ads.get_default_selector ads)
        "(Unresolved)").getLast? =
      some ("Default service for commands if none are specified:",
        [(Ads.get_default_selector ads, "(Unresolved)")], none) := by
  constructor
  · unfold Ads.list
    dsimp only
    rw [he]
    dsimp only
    rw [hbad, if_pos rfl]
    unfold Ads.listAfter
    rw [if_neg (show ¬("(Unresolved)" = Ads.get_default_selector ads) from
      fun hc => hne hc.symm)]
  · unfold Ads.listSections
    rfl

/-- Witness for C8 (amended) at a facade whose default selector
"nonexistent" names nothing: `list()` completes with the default section
reading "(Unresolved)". -/
theorem C8_witness :
    Ads.list adsMissingDefault =
      .ok (Ads.listSections adsMissingDefault "nonexistent"
        "(Unresolved)") :=
  (C8_list_degrades adsMissingDefault
    (.unresolved "nonexistent" ["nonexistent"])
    (by simp [Ads.resolve, Ads.get_default_selector, pyOrStr,
      ServiceSet.resolve, service_sets_dict, adsMissingDefault,
      _resolve, _resolveEach, dictLookup, dictKeys, List.find?])
    rfl (by decide)).1

/-- C9 (spec-modelled): after `write_to_cache(projectManifestPath,
updates)`, `get(name)` returns the written path for every name in
`updates`, and the key "adsroot" is present in the persisted cache after
every write. -/
theorem C9_cache_roundtrip (cache updates : List (String × String))
    (project_manifest_path name p : String) (live : String → Option String)
    (h : dictLookup updates name = some p) :
    (Cache.get (Cache.write_to_cache cache project_manifest_path updates)
        live name).1 = some p ∧
    "adsroot" ∈ dictKeys
      (Cache.write_to_cache cache project_manifest_path updates) := by
  constructor
  · unfold Cache.get Cache.write_to_cache
    rw [dictLookup_append, h, Option.or_some]
  · unfold Cache.write_to_cache dictKeys
    simp

/-- Witness for C9 at the unit test's scenario: writing
random-service -> /random-service/ads.yml into an empty cache makes `get`
return that path and leaves "adsroot" present. -/
theorem C9_witness :
    (Cache.get (Cache.write_to_cache [] "/adsroot/adsroot.yml"
        [("random-service", "/random-service/ads.yml")])
      (fun _ => none) "random-service").1 =
      some "/random-service/ads.yml" ∧
    "adsroot" ∈ dictKeys (Cache.write_to_cache [] "/adsroot/adsroot.yml"
        [("random-service", "/random-service/ads.yml")]) :=
  C9_cache_roundtrip [] [("random-service", "/random-service/ads.yml")]
    "/adsroot/adsroot.yml" "random-service" "/random-service/ads.yml"
    (fun _ => none) rfl

/-- C10: when a project group and a profile group share a name, the merged
namespace maps that name to the profile group (the later binding of the
dict built over project groups followed by profile groups), and facade
resolution of that name expands exactly the profile group's member
selectors. -/
theorem C10_profile_wins (ads : Ads) (g : String) (ss : ServiceSet)
    (hprof : dictLookup (service_sets_dict ads.profile.service_sets) g =
      some ss)
    (h0 : g ≠ "") (hdef : g ≠ "default") (hall : g ≠ "all")
    (hsvc : dictLookup ads.project.services_by_name g = none) :
    dictLookup (service_sets_dict
      (ads.project.service_sets ++ ads.profile.service_sets)) g = some ss ∧
    Ads.resolve ads g =
      groupExpand ss.selectors ads.project
        (service_sets_dict
          (ads.project.service_sets ++ ads.profile.service_sets)) [g] := by
  have hmerged : dictLookup (service_sets_dict
      (ads.project.service_sets ++ ads.profile.service_sets)) g =
      some ss := by
    unfold service_sets_dict at hprof ⊢
    rw [List.map_append, dictLookup_append, hprof, Option.or_some]
  refine ⟨hmerged, ?_⟩
  unfold Ads.resolve
  dsimp only
  rw [if_neg hdef]
  unfold ServiceSet.resolve
  have h := _resolve_group g ads.project
    (service_sets_dict (ads.project.service_sets ++
      ads.profile.service_sets)) [] ss h0 (by simp) hall hsvc hmerged
  rw [h, List.nil_append]

/-- Witness for C10: project group shared = [api] and profile group
shared = [db]; the merged dict maps "shared" to the profile group, facade
resolution expands the profile group's members, and the result is {db}
(the project group's members would have given {api}). -/
theorem C10_witness :
    (dictLookup (service_sets_dict (adsCollision.project.service_sets ++
      adsCollision.profile.service_sets)) "shared" =
      some ⟨"shared", ["db"]⟩ ∧
    Ads.resolve adsCollision "shared" =
      groupExpand ["db"] adsCollision.project
        (service_sets_dict (adsCollision.project.service_sets ++
          adsCollision.profile.service_sets)) ["shared"]) ∧
    Ads.resolve adsCollision "shared" = .ok ({"db"} : Finset String) := by
  constructor
  · exact C10_profile_wins adsCollision "shared" ⟨"shared", ["db"]⟩ rfl
      (by decide) (by decide) (by decide) rfl
  · simp [Ads.resolve, Ads.get_default_selector, pyOrStr,
      ServiceSet.resolve, service_sets_dict, adsCollision, projDemo,
      _resolve, _resolveEach, dictLookup, dictKeys, List.find?]
